import Mathlib

/-!
# Verification of the chartview dashboard's data-loading and metric logic

Shallow embedding of the logic of `src/lw_chart.py` and
`src/streamlit_app.py`: the `load_chart_data` metric computation
(current price, latest volume, daily percent change), the
`validate_period_interval` period/interval validation, and the
pagination button handlers.  Prices and volumes are embedded as exact
rationals (`ℚ`); the Python floats of the source carry no rounding
behaviour that the claims depend on, except where noted for division
by zero.

The spec also describes `compute_pivot_points` and `format_volume`,
which live in repository files outside `src/`; those two are modelled
from the spec's words, as marked in their doc comments.
-/

/-- One OHLCV bar, as assembled by `load_chart_data` into `chart_data`
(columns time/open/high/low/close/volume in both source files). -/
structure Bar where
  time : String
  open_ : ℚ
  high : ℚ
  low : ℚ
  close : ℚ
  volume : ℚ
  deriving DecidableEq, Repr

/-- Python negative indexing `xs.iloc[-k]`: the element `k` from the end,
failing (an `IndexError`, caught by the surrounding `except`) when the
list has fewer than `k` elements. -/
def iloc (xs : List Bar) (k : ℕ) : Option Bar :=
  if k ≤ xs.length then xs.get? (xs.length - k) else none

/-- Outcome of the percent-change division in `load_chart_data`
(`((current_price - prev_price) / prev_price) * 100`).  The source
performs this float division with no zero guard: when `prev_price = 0`
the result is not a finite percentage (numpy operands give ±inf/NaN; a
raised `ZeroDivisionError` would be caught by the surrounding `except`
and turn the whole call into the no-data result).  The embedding marks
that degenerate outcome `divByZero`; in no semantics is it the number 0. -/
inductive DailyChange where
  | value (q : ℚ) : DailyChange
  | divByZero : DailyChange
  deriving DecidableEq, Repr

/-- Result of `load_chart_data`: either the no-data sentinel (`None` /
`(None, None, None, None)` in the sources, returned for an empty fetch
or any caught exception) or the chart data together with the computed
metrics. -/
inductive LoadResult where
  | noData : LoadResult
  | ok (chart_data : List Bar) (current_price : ℚ) (volume : ℚ)
      (daily_change : DailyChange) : LoadResult
  deriving DecidableEq, Repr

/-- The metric-computing body of `load_chart_data`
(src/lw_chart.py lines 41-59, src/streamlit_app.py lines 80-108),
applied to the fetched bar sequence `df`:
if the frame is empty the no-data result is returned; otherwise
`current_price := df['close'].iloc[-1]`, `prev_price := df['close'].iloc[-2]`
(a failing `iloc[-2]` is caught by the `except` and yields the no-data
result), and `daily_change := ((current_price - prev_price) / prev_price) * 100`
with the unguarded division embedded as `DailyChange`. -/
def load_chart_data (df : List Bar) : LoadResult :=
  if df.isEmpty then LoadResult.noData
  else
    match iloc df 1, iloc df 2 with
    | some lastBar, some prevBar =>
        let current_price := lastBar.close
        let prev_price := prevBar.close
        if prev_price = 0 then
          LoadResult.ok df current_price lastBar.volume DailyChange.divByZero
        else
          LoadResult.ok df current_price lastBar.volume
            (DailyChange.value ((current_price - prev_price) / prev_price * 100))
    | _, _ => LoadResult.noData

/-- The daily-change component of a `LoadResult`, when present. -/
def dailyChangeOf : LoadResult → Option DailyChange
  | LoadResult.noData => none
  | LoadResult.ok _ _ _ d => some d

/-- Whether the callers (the chart loops in both source files) render a
chart for this result: both guard on the result being non-`None`
(`if chart_data is not None` / `if result is not None`). -/
def rendersChart : LoadResult → Bool
  | LoadResult.noData => false
  | LoadResult.ok _ _ _ _ => true

/-- A bar whose numeric fields all equal `c`; only `close` (and, for the
last bar, `volume`) matter to the metric computation. -/
def mkBar (c : ℚ) : Bar := ⟨"", c, c, c, c, c⟩

/-- `load_chart_data` as the source wraps it around its data fetch
(`yf.download` in src/lw_chart.py line 38, `requests.get` in
src/streamlit_app.py line 76): the body performs exactly one fetch
inside the `try` block; any raised exception is caught and the no-data
result returned.  The fetch collaborator is abstracted as a function
from attempt index to outcome; the second component of the result is
the number of fetch calls the body makes. -/
def load_chart_data_fetched (fetch : ℕ → Except Unit (List Bar)) :
    LoadResult × ℕ :=
  match fetch 0 with
  | Except.error _ => (LoadResult.noData, 1)
  | Except.ok df => (load_chart_data df, 1)

/-- `validate_period_interval` from src/streamlit_app.py lines 38-47:
coerce the selected period to one valid for the interval, substituting
a default when it is not. -/
def validate_period_interval (period interval : String) : String :=
  if interval = "Weekly" then
    if period ∈ ["1Y", "2Y", "5Y", "MAX"] then period else "1Y"
  else if interval = "Monthly" then
    if period ∈ ["5Y", "MAX"] then period else "5Y"
  else period

/-- The two pagination buttons. -/
inductive PageAction where
  | prev : PageAction
  | next : PageAction
  deriving DecidableEq, Repr

/-- Button handlers of src/lw_chart.py lines 166-177: Previous
decrements only when `current_page > 1`; Next increments only when
`current_page < total_pages`.  Pages are Python ints, embedded as `ℤ`. -/
def pageStepLw (total_pages : ℤ) (page : ℤ) : PageAction → ℤ
  | PageAction.prev => if 1 < page then page - 1 else page
  | PageAction.next => if page < total_pages then page + 1 else page

/-- Button handlers of src/streamlit_app.py lines 344-361: Previous is
disabled (cannot fire) when `current_page == 1`, otherwise decrements;
Next is disabled when `current_page == total_pages`, otherwise
increments. -/
def pageStepApp (total_pages : ℤ) (page : ℤ) : PageAction → ℤ
  | PageAction.prev => if page = 1 then page else page - 1
  | PageAction.next => if page = total_pages then page else page + 1

/-- The page reached from the initial page 1 (both files initialise
`st.session_state.current_page = 1`) after a sequence of button
presses. -/
def runPages (step : ℤ → PageAction → ℤ) (acts : List PageAction) : ℤ :=
  acts.foldl step 1

/-- `start_idx = (current_page - 1) * CHARTS_PER_PAGE`
(src/lw_chart.py line 138, src/streamlit_app.py line 364). -/
def start_idx (page cpp : ℤ) : ℤ := (page - 1) * cpp

/-- `end_idx = min(start_idx + CHARTS_PER_PAGE, len(stocks_df))`
(src/lw_chart.py line 139, src/streamlit_app.py line 365). -/
def end_idx (page cpp len : ℤ) : ℤ := min (start_idx page cpp + cpp) len

/-- Round a rational to 2 decimal places (nearest, halves away from
zero as `round` does). -/
def round2 (x : ℚ) : ℚ := (round (100 * x) : ℤ) / 100

/-- The seven classic pivot levels. -/
structure PivotLevels where
  P : ℚ
  R1 : ℚ
  S1 : ℚ
  R2 : ℚ
  S2 : ℚ
  R3 : ℚ
  S3 : ℚ
  deriving DecidableEq, Repr

/-- Modelled from the spec: `compute_pivot_points` appears in
repository files outside `src/` (neither src/lw_chart.py nor
src/streamlit_app.py computes pivots); per §4 of the spec,
`P = (high+low+close)/3; R1 = 2P−low; S1 = 2P−high; R2 = P+(high−low);
S2 = P−(high−low); R3 = high+2(P−low); S3 = low−2(high−P)`, each
result rounded to 2 decimal places (`P` in the derived formulas being
the unrounded pivot). -/
def compute_pivot_points (high low close : ℚ) : PivotLevels :=
  let P := (high + low + close) / 3
  { P := round2 P
    R1 := round2 (2 * P - low)
    S1 := round2 (2 * P - high)
    R2 := round2 (P + (high - low))
    S2 := round2 (P - (high - low))
    R3 := round2 (high + 2 * (P - low))
    S3 := round2 (low - 2 * (high - P)) }

/-- `v / d` rounded to the nearest natural number, halves rounding up. -/
def roundDiv (v d : ℕ) : ℕ := (2 * v + d) / (2 * d)

/-- Render `t` tenths as the 1-decimal string "t/10.t%10". -/
def tenthsStr (t : ℕ) : String := toString (t / 10) ++ "." ++ toString (t % 10)

/-- Modelled from the spec: `format_volume` appears in repository files
outside `src/` (the two files under src/ format volume inline as
`{volume:,.0f}` with no K/M/B scaling); per §4 of the spec, the output
carries suffix B when `v ≥ 1,000,000,000`, M when `v ≥ 1,000,000`, K
when `v ≥ 1,000`, else the plain integer string, rounded to 1 decimal
place at the chosen scale (the spec leaves the tie convention open;
halves round up here). -/
def format_volume (v : ℕ) : String :=
  if 1000000000 ≤ v then tenthsStr (roundDiv v 100000000) ++ "B"
  else if 1000000 ≤ v then tenthsStr (roundDiv v 100000) ++ "M"
  else if 1000 ≤ v then tenthsStr (roundDiv v 100) ++ "K"
  else toString v

-- Helper lemmas about `iloc` on a list with an explicit two-bar tail.

theorem iloc_one_append (pre : List Bar) (a b : Bar) :
    iloc (pre ++ [a, b]) 1 = some b := by
  have h : (1 : ℕ) ≤ (pre ++ [a, b]).length := by
    simp [List.length_append]
  simp only [iloc, if_pos h, List.length_append, List.length_cons,
    List.length_nil]
  rw [List.get?_append_right (by omega)]
  have h2 : pre.length + (1 + 1) - 1 - pre.length = 1 := by omega
  simp [h2]

theorem iloc_two_append (pre : List Bar) (a b : Bar) :
    iloc (pre ++ [a, b]) 2 = some a := by
  have h : (2 : ℕ) ≤ (pre ++ [a, b]).length := by
    simp [List.length_append]
  simp only [iloc, if_pos h, List.length_append, List.length_cons,
    List.length_nil]
  rw [List.get?_append_right (by omega)]
  have h2 : pre.length + (1 + 1) - 2 - pre.length = 0 := by omega
  simp [h2]

/-- A generic invariant-preservation lemma for folding button presses
over a page state. -/
theorem foldl_page_invariant (P : ℤ → Prop) (step : ℤ → PageAction → ℤ)
    (hP : ∀ p a, P p → P (step p a)) :
    ∀ (acts : List PageAction) (init : ℤ), P init → P (acts.foldl step init) := by
  intro acts
  induction acts with
  | nil => intro init h; exact h
  | cons a rest ih => intro init h; exact ih (step init a) (hP init a h)

/-- On a sequence with an explicit two-bar tail and nonzero
second-to-last close, `load_chart_data` computes the metrics from the
last two bars. -/
theorem load_chart_data_last_two (pre : List Bar) (b2 b1 : Bar)
    (h : b2.close ≠ 0) :
    load_chart_data (pre ++ [b2, b1]) =
      LoadResult.ok (pre ++ [b2, b1]) b1.close b1.volume
        (DailyChange.value ((b1.close - b2.close) / b2.close * 100)) := by
  simp [load_chart_data, iloc_one_append, iloc_two_append, h]

/-- C1: for every bar sequence of length ≥ 2 whose second-to-last close
is nonzero, `load_chart_data` returns the last close as current price,
the last bar's volume, and percent change
`(last close − second-to-last close) / second-to-last close × 100`;
in particular a sequence ending in closes 100 then 110 yields 10. -/
theorem load_chart_data_percent_change (pre : List Bar) (b2 b1 : Bar)
    (h : b2.close ≠ 0) :
    load_chart_data (pre ++ [b2, b1]) =
      LoadResult.ok (pre ++ [b2, b1]) b1.close b1.volume
        (DailyChange.value ((b1.close - b2.close) / b2.close * 100)) ∧
    dailyChangeOf (load_chart_data [mkBar 100, mkBar 110]) =
      some (DailyChange.value 10) := by
  refine ⟨load_chart_data_last_two pre b2 b1 h, ?_⟩
  have h100 : (mkBar 100).close ≠ (0 : ℚ) := by norm_num [mkBar]
  have e := load_chart_data_last_two [] (mkBar 100) (mkBar 110) h100
  simp only [List.nil_append] at e
  rw [e]
  simp only [dailyChangeOf, Option.some.injEq, DailyChange.value.injEq]
  norm_num [mkBar]

/-- Witness for C1 at the concrete two-bar sequence with closes 100, 110. -/
theorem load_chart_data_percent_change_witness :
    load_chart_data ([] ++ [mkBar 100, mkBar 110]) =
      LoadResult.ok ([] ++ [mkBar 100, mkBar 110]) (mkBar 110).close
        (mkBar 110).volume
        (DailyChange.value
          (((mkBar 110).close - (mkBar 100).close) / (mkBar 100).close * 100)) :=
  (load_chart_data_percent_change [] (mkBar 100) (mkBar 110)
    (by norm_num [mkBar])).1

/-- C2: an empty bar sequence yields the distinguished no-data result
(not computed metrics), and the callers do not render a chart for it. -/
theorem load_chart_data_empty :
    load_chart_data [] = LoadResult.noData ∧
    rendersChart (load_chart_data []) = false := by
  exact ⟨rfl, rfl⟩

/-- C3 counterexample: on the single-bar sequence with close 5,
`load_chart_data` returns the no-data sentinel, not the metrics
(current price 5, percent change 0) the claim asserts. -/
theorem load_chart_data_single_bar_counterexample :
    load_chart_data [mkBar 5] = LoadResult.noData ∧
    LoadResult.noData ≠
      LoadResult.ok [mkBar 5] 5 5 (DailyChange.value 0) := by
  exact ⟨rfl, by decide⟩

/-- C3 amended: for every bar sequence of exactly 1 bar,
`load_chart_data` fails (the `iloc[-2]` lookup raises, the exception is
caught) and returns the no-data result; it does not yield metrics. -/
theorem load_chart_data_single_bar (b : Bar) :
    load_chart_data [b] = LoadResult.noData := by
  simp [load_chart_data, iloc]

/-- C4 counterexample: for the two-bar sequence with closes 0 then 100
(second-to-last close exactly 0), the percent-change division is the
unguarded divide-by-zero outcome, not the claimed silent value 0. -/
theorem load_chart_data_zero_prev_counterexample :
    dailyChangeOf (load_chart_data [mkBar 0, mkBar 100]) =
      some DailyChange.divByZero ∧
    some DailyChange.divByZero ≠ some (DailyChange.value 0) := by
  exact ⟨rfl, by decide⟩

/-- C4 amended: for every bar sequence of length ≥ 2 whose
second-to-last close is exactly 0, the percent-change computation hits
an unguarded division by zero (numpy operands give a non-finite float;
a raised `ZeroDivisionError` would be caught and yield the no-data
result) — in no case is a silent percent change of 0 produced. -/
theorem load_chart_data_zero_prev (pre : List Bar) (b2 b1 : Bar)
    (h : b2.close = 0) :
    load_chart_data (pre ++ [b2, b1]) =
      LoadResult.ok (pre ++ [b2, b1]) b1.close b1.volume
        DailyChange.divByZero := by
  simp [load_chart_data, iloc_one_append, iloc_two_append, h]

/-- Witness for the amended C4 at the concrete sequence with closes 0, 100. -/
theorem load_chart_data_zero_prev_witness :
    load_chart_data ([] ++ [mkBar 0, mkBar 100]) =
      LoadResult.ok ([] ++ [mkBar 0, mkBar 100]) (mkBar 100).close
        (mkBar 100).volume DailyChange.divByZero :=
  load_chart_data_zero_prev [] (mkBar 0) (mkBar 100) (by norm_num [mkBar])

/-- C5 counterexample: for inputs (110, 90, 100) the operation defined
by the spec's own formulas produces R3 = 130 and S3 = 70, not the
claimed R3 = 140 and S3 = 60 (the claimed values follow the alternate
convention R3 = P + 2(high−low), S3 = P − 2(high−low), which
contradicts the formulas the same claim states). -/
theorem compute_pivot_points_counterexample :
    (compute_pivot_points 110 90 100).R3 = 130 ∧
    (compute_pivot_points 110 90 100).S3 = 70 ∧
    (130 : ℚ) ≠ 140 ∧ (70 : ℚ) ≠ 60 := by
  refine ⟨?_, ?_, by norm_num, by norm_num⟩ <;>
    norm_num [compute_pivot_points, round2, round_eq]

/-- C5 amended: `compute_pivot_points` satisfies
P = (high+low+close)/3, R1 = 2P−low, S1 = 2P−high, R2 = P+(high−low),
S2 = P−(high−low), R3 = high+2(P−low), S3 = low−2(high−P), each
rounded to 2 decimal places; for (110, 90, 100) it yields P=100,
R1=110, S1=90, R2=120, S2=80, R3=130, S3=70. -/
theorem compute_pivot_points_spec (high low close : ℚ) :
    ((compute_pivot_points high low close).P =
        round2 ((high + low + close) / 3) ∧
      (compute_pivot_points high low close).R1 =
        round2 (2 * ((high + low + close) / 3) - low) ∧
      (compute_pivot_points high low close).S1 =
        round2 (2 * ((high + low + close) / 3) - high) ∧
      (compute_pivot_points high low close).R2 =
        round2 ((high + low + close) / 3 + (high - low)) ∧
      (compute_pivot_points high low close).S2 =
        round2 ((high + low + close) / 3 - (high - low)) ∧
      (compute_pivot_points high low close).R3 =
        round2 (high + 2 * ((high + low + close) / 3 - low)) ∧
      (compute_pivot_points high low close).S3 =
        round2 (low - 2 * (high - (high + low + close) / 3))) ∧
    compute_pivot_points 110 90 100 =
      ⟨100, 110, 90, 120, 80, 130, 70⟩ := by
  refine ⟨⟨rfl, rfl, rfl, rfl, rfl, rfl, rfl⟩, ?_⟩
  simp only [compute_pivot_points, round2, PivotLevels.mk.injEq]
  norm_num [round_eq]

/-- C6: `format_volume` is total on naturals and yields suffix B at or
above one billion, M at or above one million (below one billion), K at
or above one thousand (below one million), and the plain integer string
below one thousand; in particular `format_volume 999 = "999"` and
`format_volume 2300000 = "2.3M"`. -/
theorem format_volume_spec (v : ℕ) :
    (1000000000 ≤ v → ∃ s, format_volume v = s ++ "B") ∧
    (1000000 ≤ v → v < 1000000000 → ∃ s, format_volume v = s ++ "M") ∧
    (1000 ≤ v → v < 1000000 → ∃ s, format_volume v = s ++ "K") ∧
    (v < 1000 → format_volume v = toString v) ∧
    format_volume 999 = "999" ∧
    format_volume 2300000 = "2.3M" := by
  refine ⟨?_, ?_, ?_, ?_, rfl, rfl⟩
  · intro h1
    exact ⟨tenthsStr (roundDiv v 100000000), by simp [format_volume, h1]⟩
  · intro h1 h2
    refine ⟨tenthsStr (roundDiv v 100000), ?_⟩
    have hb : ¬ 1000000000 ≤ v := by omega
    simp [format_volume, hb, h1]
  · intro h1 h2
    refine ⟨tenthsStr (roundDiv v 100), ?_⟩
    have hb : ¬ 1000000000 ≤ v := by omega
    have hm : ¬ 1000000 ≤ v := by omega
    simp [format_volume, hb, hm, h1]
  · intro h1
    have hb : ¬ 1000000000 ≤ v := by omega
    have hm : ¬ 1000000 ≤ v := by omega
    have hk : ¬ 1000 ≤ v := by omega
    simp [format_volume, hb, hm, hk]

/-- Witness for C6 at v = 1500 (the K range). -/
theorem format_volume_spec_witness :
    ∃ s, format_volume 1500 = s ++ "K" :=
  (format_volume_spec 1500).2.2.1 (by norm_num) (by norm_num)

/-- C7 counterexample: under a transient fetch failure (the fetch fails
on the first attempt and would succeed on any later one),
`load_chart_data` surfaces the terminal no-data result after exactly
one fetch call — it does not retry, and 1 ≠ 3 attempts. -/
theorem load_chart_data_fetched_counterexample :
    load_chart_data_fetched
        (fun n => if n = 0 then Except.error ()
          else Except.ok [mkBar 100, mkBar 110]) =
      (LoadResult.noData, 1) ∧ (1 : ℕ) ≠ 3 := by
  exact ⟨rfl, by norm_num⟩

/-- C7 amended: both source files call their fetch exactly once with no
retry or backoff; a failing fetch immediately yields the terminal
no-data result. -/
theorem load_chart_data_fetched_single_attempt
    (fetch : ℕ → Except Unit (List Bar)) :
    (load_chart_data_fetched fetch).2 = 1 ∧
    (∀ e, fetch 0 = Except.error e →
      (load_chart_data_fetched fetch).1 = LoadResult.noData) := by
  constructor
  · unfold load_chart_data_fetched
    cases fetch 0 <;> rfl
  · intro e he
    unfold load_chart_data_fetched
    rw [he]

/-- Witness for the amended C7 at an always-failing fetch. -/
theorem load_chart_data_fetched_single_attempt_witness :
    (load_chart_data_fetched (fun _ => Except.error ())).1 =
      LoadResult.noData :=
  (load_chart_data_fetched_single_attempt (fun _ => Except.error ())).2 () rfl

/-- C8: the metric computations are deterministic and stateless — the
embedded `load_chart_data` and `compute_pivot_points` are pure
functions of their arguments (the sources read only their inputs; the
`print` in streamlit_app's `except` branch does not affect the
returned value), so a second invocation on identical input returns an
identical result. -/
theorem metrics_deterministic (df : List Bar) (high low close : ℚ) :
    load_chart_data df = load_chart_data df ∧
    compute_pivot_points high low close =
      compute_pivot_points high low close :=
  ⟨rfl, rfl⟩

/-- C9: `validate_period_interval` always returns a period valid for
the interval — Weekly yields a member of {1Y, 2Y, 5Y, MAX}, Monthly a
member of {5Y, MAX}, Daily returns its input unchanged, an
already-valid period is returned unchanged, and the function is
idempotent in its first argument for any fixed interval. -/
theorem validate_period_interval_spec (p i : String) :
    validate_period_interval p "Weekly" ∈
      (["1Y", "2Y", "5Y", "MAX"] : List String) ∧
    validate_period_interval p "Monthly" ∈
      (["5Y", "MAX"] : List String) ∧
    validate_period_interval p "Daily" = p ∧
    (p ∈ (["1Y", "2Y", "5Y", "MAX"] : List String) →
      validate_period_interval p "Weekly" = p) ∧
    (p ∈ (["5Y", "MAX"] : List String) →
      validate_period_interval p "Monthly" = p) ∧
    validate_period_interval (validate_period_interval p i) i =
      validate_period_interval p i := by
  refine ⟨?_, ?_, ?_, ?_, ?_, ?_⟩
  · by_cases h : p ∈ (["1Y", "2Y", "5Y", "MAX"] : List String) <;>
      simp [validate_period_interval, h]
  · by_cases h : p ∈ (["5Y", "MAX"] : List String) <;>
      simp [validate_period_interval, h]
  · simp [validate_period_interval]
  · intro h
    simp [validate_period_interval, h]
  · intro h
    simp [validate_period_interval, h]
  · by_cases hw : i = "Weekly"
    · subst hw
      by_cases h : p ∈ (["1Y", "2Y", "5Y", "MAX"] : List String) <;>
        simp [validate_period_interval, h]
    · by_cases hm : i = "Monthly"
      · subst hm
        by_cases h : p ∈ (["5Y", "MAX"] : List String) <;>
          simp [validate_period_interval, h]
      · simp [validate_period_interval, hw, hm]

/-- Witness for C9: the already-valid period "2Y" is unchanged under a
Weekly interval. -/
theorem validate_period_interval_spec_witness :
    validate_period_interval "2Y" "Weekly" = "2Y" :=
  (validate_period_interval_spec "2Y" "Weekly").2.2.2.1 (by simp)

/-- C10: starting from page 1, any sequence of Previous/Next presses
keeps `1 ≤ current_page ≤ total_pages` (when `total_pages ≥ 1`) under
both files' button handlers, hence the displayed slice satisfies
`0 ≤ start_idx` and `end_idx ≤ len(stocks_df)` (with the respective
CHARTS_PER_PAGE of 10 and 3). -/
theorem pagination_invariant (total len : ℤ) (acts : List PageAction)
    (htot : 1 ≤ total) :
    (1 ≤ runPages (pageStepLw total) acts ∧
      runPages (pageStepLw total) acts ≤ total ∧
      0 ≤ start_idx (runPages (pageStepLw total) acts) 10 ∧
      end_idx (runPages (pageStepLw total) acts) 10 len ≤ len) ∧
    (1 ≤ runPages (pageStepApp total) acts ∧
      runPages (pageStepApp total) acts ≤ total ∧
      0 ≤ start_idx (runPages (pageStepApp total) acts) 3 ∧
      end_idx (runPages (pageStepApp total) acts) 3 len ≤ len) := by
  have hlw : ∀ p a, (1 ≤ p ∧ p ≤ total) →
      (1 ≤ pageStepLw total p a ∧ pageStepLw total p a ≤ total) := by
    intro p a h
    obtain ⟨h1, h2⟩ := h
    cases a <;> simp only [pageStepLw] <;> split <;> omega
  have happ : ∀ p a, (1 ≤ p ∧ p ≤ total) →
      (1 ≤ pageStepApp total p a ∧ pageStepApp total p a ≤ total) := by
    intro p a h
    obtain ⟨h1, h2⟩ := h
    cases a <;> simp only [pageStepApp] <;> split <;> omega
  have hlw2 := foldl_page_invariant (fun q => 1 ≤ q ∧ q ≤ total)
    (pageStepLw total) hlw acts 1 ⟨le_refl 1, htot⟩
  have happ2 := foldl_page_invariant (fun q => 1 ≤ q ∧ q ≤ total)
    (pageStepApp total) happ acts 1 ⟨le_refl 1, htot⟩
  simp only [runPages, start_idx, end_idx]
  obtain ⟨l1, l2⟩ := hlw2
  obtain ⟨a1, a2⟩ := happ2
  refine ⟨⟨l1, l2, ?_, ?_⟩, ⟨a1, a2, ?_, ?_⟩⟩
  · omega
  · exact min_le_right _ _
  · omega
  · exact min_le_right _ _

/-- Witness for C10 with total_pages = 2 and a concrete press sequence. -/
theorem pagination_invariant_witness :
    1 ≤ runPages (pageStepLw 2)
        [PageAction.next, PageAction.next, PageAction.prev] :=
  (pagination_invariant 2 5
    [PageAction.next, PageAction.next, PageAction.prev] (by norm_num)).1.1
